import Mathlib

/-
Verification of the TRS Foundation self-healing link system
(foundation-links.js) and its deployment scripts (deploy.sh variants).

The JavaScript is shallowly embedded: JS strings become Lean `String`
(lists of characters), the DOM anchor element becomes an explicit record,
the nondeterministic outcomes of `fetch` become an oracle `Nat → FetchOutcome`
indexed by attempt number, and every observable side effect (fetch calls,
backoff sleeps, console warnings, correction logs) is recorded in an
explicit event list.
-/

namespace TRS

/-! ## JS string primitives

`String.prototype.includes(pat)` and `String.prototype.replace(pat, rep)`
with a string (non-regexp) pattern: `replace` rewrites only the FIRST
occurrence of `pat`.  `splitFirst pat l` finds the first occurrence of
`pat` in `l`, returning the part before it and the part after it. -/

def splitFirst (pat : List Char) : List Char → Option (List Char × List Char)
  | [] => if pat.isPrefixOf [] then some ([], []) else none
  | c :: rest =>
    if pat.isPrefixOf (c :: rest) then some ([], (c :: rest).drop pat.length)
    else (splitFirst pat rest).map fun pq => (c :: pq.1, pq.2)

/-- JS `s.includes(pat)`. -/
def jsIncludes (s pat : String) : Bool :=
  (splitFirst pat.data s.data).isSome

/-- JS `s.replace(pat, rep)` with a plain-string pattern: replaces the
first occurrence of `pat` only, and returns `s` unchanged when `pat` does
not occur. -/
def jsReplaceFirst (s pat rep : String) : String :=
  match splitFirst pat.data s.data with
  | some (pre, post) => ⟨pre ++ rep.data ++ post⟩
  | none => s

theorem splitFirst_eq_append {pat : List Char} :
    ∀ {l pre post : List Char}, splitFirst pat l = some (pre, post) →
      l = pre ++ pat ++ post := by
  intro l
  induction l with
  | nil =>
    intro pre post h
    simp only [splitFirst] at h
    split at h
    · rename_i hp
      rw [ List.isPrefixOf_iff_prefix] at hp
      obtain ⟨t, ht⟩ := hp
      have ht' : pat = [] := by
        cases pat with
        | nil => rfl
        | cons a l => exact absurd ht (by simp)
      simp only [Option.some.injEq, Prod.mk.injEq] at h
      simp [← h.1, ← h.2, ht']
    · exact absurd h (by simp)
  | cons c rest ih =>
    intro pre post h
    simp only [splitFirst] at h
    split at h
    · rename_i hp
      rw [ List.isPrefixOf_iff_prefix] at hp
      obtain ⟨t, ht⟩ := hp
      simp only [Option.some.injEq, Prod.mk.injEq] at h
      have hdrop : (c :: rest).drop pat.length = t := by
        rw [← ht]
        exact List.drop_left pat t
      rw [← h.1, ← h.2, hdrop, List.nil_append, ht]
    · rcases hs : splitFirst pat rest with _ | ⟨pre', post'⟩
      · rw [hs] at h; exact absurd h (by simp)
      · rw [hs] at h
        simp only [Option.map_some', Option.some.injEq, Prod.mk.injEq] at h
        rw [← h.1, ← h.2]
        simpa using ih hs

theorem splitFirst_of_isPrefixOf {pat l : List Char}
    (h : pat.isPrefixOf l = true) :
    splitFirst pat l = some ([], l.drop pat.length) := by
  cases l with
  | nil => simp [splitFirst, h]
  | cons c rest => simp [splitFirst, h]

theorem splitFirst_cons_of_not_prefixOf {pat : List Char} {c : Char}
    {rest : List Char} (h : pat.isPrefixOf (c :: rest) = false) :
    splitFirst pat (c :: rest) = (splitFirst pat rest).map fun pq => (c :: pq.1, pq.2) := by
  simp [splitFirst, h]

theorem jsIncludes_of_isSome {s pat : String} {pq : List Char × List Char}
    (h : splitFirst pat.data s.data = some pq) : jsIncludes s pat = true := by
  simp [jsIncludes, h]

theorem exists_splitFirst_of_jsIncludes {s pat : String}
    (h : jsIncludes s pat = true) :
    ∃ pre post, splitFirst pat.data s.data = some (pre, post) := by
  simp only [jsIncludes, Option.isSome_iff_exists] at h
  obtain ⟨⟨pre, post⟩, hpq⟩ := h
  exact ⟨pre, post, hpq⟩

theorem jsReplaceFirst_data {s pat rep : String} {pre post : List Char}
    (h : splitFirst pat.data s.data = some (pre, post)) :
    (jsReplaceFirst s pat rep).data = pre ++ rep.data ++ post := by
  simp [jsReplaceFirst, h]

/-- When the pattern occurs and has a different length from the
replacement, single-occurrence replacement always changes the string. -/
theorem jsReplaceFirst_ne_of_length_ne {s pat rep : String}
    (hinc : jsIncludes s pat = true)
    (hlen : pat.data.length ≠ rep.data.length) :
    jsReplaceFirst s pat rep ≠ s := by
  obtain ⟨pre, post, hsp⟩ := exists_splitFirst_of_jsIncludes hinc
  intro heq
  have hd : (jsReplaceFirst s pat rep).data = s.data := by rw [heq]
  rw [jsReplaceFirst_data hsp] at hd
  have hd2 : s.data = pre ++ pat.data ++ post := splitFirst_eq_append hsp
  rw [hd2] at hd
  have hlen2 := congrArg List.length hd
  rw [List.length_append, List.length_append, List.length_append,
    List.length_append] at hlen2
  omega

/-- Replacing a pattern that sits at the start of the string yields the
replacement followed by the remainder. -/
theorem jsReplaceFirst_of_isPrefixOf {s pat rep : String}
    (h : pat.data.isPrefixOf s.data = true) :
    (jsReplaceFirst s pat rep).data = rep.data ++ s.data.drop pat.data.length := by
  simp [jsReplaceFirst, splitFirst_of_isPrefixOf h]

/-- Replacing an occurrence of a pattern that is NOT a prefix of the string
keeps the string's first character. -/
theorem jsReplaceFirst_head_of_not_prefixOf {s pat rep : String} {c : Char}
    {tl : List Char} (hs : s.data = c :: tl)
    (hnp : pat.data.isPrefixOf s.data = false)
    (hinc : jsIncludes s pat = true) :
    ∃ tl', (jsReplaceFirst s pat rep).data = c :: tl' := by
  obtain ⟨pre, post, hsp⟩ := exists_splitFirst_of_jsIncludes hinc
  rw [hs] at hsp hnp
  rw [splitFirst_cons_of_not_prefixOf hnp] at hsp
  rcases hs2 : splitFirst pat.data tl with _ | ⟨pre', post'⟩
  · rw [hs2] at hsp; exact absurd hsp (by simp)
  · have hsp2 : splitFirst pat.data s.data = some (c :: pre', post') := by
      rw [hs, splitFirst_cons_of_not_prefixOf hnp, hs2]
      simp
    refine ⟨pre' ++ rep.data ++ post', ?_⟩
    rw [jsReplaceFirst_data hsp2]
    simp

/-! ## Data model of foundation-links.js

`TRSLinkFoundation`'s configuration fields (the mutable `checkedLinks` set
is threaded explicitly as state).  An anchor element is a record of the
DOM state the script reads and writes: `href`, `title`, the class list,
the `data-original-url` attribute, the `data-trs-verified` attribute
(its `Date.now()` timestamp value abstracted to presence), and the number
of `.trs-correction-notice` child nodes.  The unused `link.textContent`
read is omitted. -/

structure TRSLinkFoundation where
  retryAttempts : Nat
  retryDelay : Nat
  fallbackUrl : String
  logErrors : Bool
  deriving DecidableEq

/-- The constructor values of `new TRSLinkFoundation()`. -/
def defaultFoundation : TRSLinkFoundation :=
  { retryAttempts := 3, retryDelay := 1000, fallbackUrl := "/404.html", logErrors := true }

structure Element where
  href : String
  title : Option String
  classes : List String
  dataOriginalUrl : Option String
  trsVerified : Bool
  noticeCount : Nat
  deriving DecidableEq

/-- An anchor as the scanner first sees it: href only, no annotations. -/
def mkAnchor (href : String) : Element :=
  { href := href, title := none, classes := [], dataOriginalUrl := none,
    trsVerified := false, noticeCount := 0 }

/-- A settled `fetch` response as the script inspects it: `response.ok`
and whether `response.type === 'opaque'`. -/
structure Response where
  ok : Bool
  typeOpaque : Bool
  deriving DecidableEq

/-- One attempt's `fetch` either resolves with a response or rejects
(network error), which is what the `catch` block receives. -/
inductive FetchOutcome where
  | resolved (r : Response)
  | rejected
  deriving DecidableEq

/-- Observable side effects of a validation run, in order: `fetch` calls,
backoff sleeps, `console.warn` correction warnings, and `logCorrection`
log lines. -/
inductive Event where
  | fetch (url : String)
  | sleep (ms : Nat)
  | warn (attempts : Nat) (url : String)
  | correct (originalUrl newUrl correctionType : String)
  deriving DecidableEq

/-- `classList.add`: appends the class unless already present. -/
def classListAdd (cs : List String) (c : String) : List String :=
  if c ∈ cs then cs else cs ++ [c]

/-- `isValidUrl(string)`: `new URL(string)` must succeed and the parsed
protocol must be `http:` or `https:`.  The WHATWG URL parser is modelled
at scheme granularity: the text before the first `:` must be a scheme
(a letter followed by letters, digits, `+`, `-` or `.`); the protocol is
that scheme lowercased.  A string with no scheme (such as a malformed or
relative string) fails to parse. -/
def isSchemeTailChar (c : Char) : Bool :=
  c.isAlpha || c.isDigit || c = '+' || c = '-' || c = '.'

def parseScheme (s : String) : Option String :=
  match splitFirst [':'] s.data with
  | some (pre, _) =>
    match pre with
    | [] => none
    | c :: rest =>
      if c.isAlpha && rest.all isSchemeTailChar then some ⟨(c :: rest).map Char.toLower⟩
      else none
  | none => none

def isValidUrl (s : String) : Bool :=
  match parseScheme s with
  | some scheme => scheme == "http" || scheme == "https"
  | none => false

/-- `canRedirectToAlternative(url)`. -/
def canRedirectToAlternative (url : String) : Bool :=
  jsIncludes url "http://" || jsIncludes url "www." || jsIncludes url "github.com"

/-- `findAlternative(url)`: the `alternatives` object literal computes all
three candidate rewrites up front; `Object.entries` iterates them in
insertion order; the first pattern contained in the URL whose rewrite
differs from the URL wins; otherwise the fallback. -/
def findAlternative (f : TRSLinkFoundation) (url : String) : String :=
  let alt1 := jsReplaceFirst url "http://" "https://"
  let alt2 := jsReplaceFirst url "www." ""
  let alt3 := jsReplaceFirst url "github.com" "github.io"
  if jsIncludes url "http://" && alt1 != url then alt1
  else if jsIncludes url "www." && alt2 != url then alt2
  else if jsIncludes url "github.com" && alt3 != url then alt3
  else f.fallbackUrl

/-- `logCorrection(originalUrl, newUrl, correctionType)`: emits the log
line only when `logErrors` is set. -/
def logCorrection (f : TRSLinkFoundation) (originalUrl newUrl correctionType : String) :
    List Event :=
  if f.logErrors then [Event.correct originalUrl newUrl correctionType] else []

/-- `markLinkHealthy(link)`. -/
def markLinkHealthy (el : Element) : Element :=
  { el with classes := classListAdd el.classes "trs-verified-link", trsVerified := true }

/-- `handleBrokenLink(link, error)`: rewrites the href (pattern
alternative or fallback), records the original URL in `title` and
`data-original-url`, adds the `trs-corrected-link` class, and appends one
`.trs-correction-notice` child unless one is already present. -/
def handleBrokenLink (f : TRSLinkFoundation) (el : Element) : Element × List Event :=
  let originalUrl := el.href
  let (el1, evs) :=
    if canRedirectToAlternative originalUrl then
      let alternativeUrl := findAlternative f originalUrl
      ({ el with href := alternativeUrl,
                 title := some ("Original: " ++ originalUrl ++ " | Redirected to working alternative") },
       logCorrection f originalUrl alternativeUrl "alternative_found")
    else
      ({ el with href := f.fallbackUrl,
                 title := some ("Original: " ++ originalUrl ++ " | Temporarily unavailable") },
       logCorrection f originalUrl f.fallbackUrl "fallback_applied")
  let el2 := { el1 with classes := classListAdd el1.classes "trs-corrected-link",
                        dataOriginalUrl := some originalUrl }
  let el3 := if el2.noticeCount == 0 then { el2 with noticeCount := el2.noticeCount + 1 } else el2
  (el3, evs)

/-- The `for (let attempt = 1; attempt <= this.retryAttempts; attempt++)`
loop of `validateLink`, with `fuel = retryAttempts - attempt + 1`
remaining iterations.  Each iteration fetches once.  A response that is
`ok` or opaque marks the link healthy and returns.  A response that is
neither falls off the end of the `try` block, so the loop moves on to the
next attempt with no sleep and no handling.  A rejection reaches the
`catch`: on the last attempt it warns and hands the element to
`handleBrokenLink`; otherwise it sleeps `retryDelay * attempt`. -/
def probeLoop (f : TRSLinkFoundation) (el : Element) (url : String)
    (o : Nat → FetchOutcome) : Nat → Nat → Element × List Event
  | _, 0 => (el, [])
  | attempt, fuel + 1 =>
    match o attempt with
    | FetchOutcome.resolved r =>
      if r.ok || r.typeOpaque then (markLinkHealthy el, [Event.fetch url])
      else
        let rest := probeLoop f el url o (attempt + 1) fuel
        (rest.1, Event.fetch url :: rest.2)
    | FetchOutcome.rejected =>
      if attempt == f.retryAttempts then
        let hb := handleBrokenLink f el
        (hb.1, Event.fetch url :: Event.warn attempt url :: hb.2)
      else
        let rest := probeLoop f el url o (attempt + 1) fuel
        (rest.1, Event.fetch url :: Event.sleep (f.retryDelay * attempt) :: rest.2)

structure RunResult where
  checked : List String
  element : Element
  events : List Event
  deriving DecidableEq

/-- `validateLink(link)`: skips a URL already in the checked set or an
invalid one; otherwise adds the URL to the set and runs the probe loop
from attempt 1. -/
def validateLink (f : TRSLinkFoundation) (checked : List String) (el : Element)
    (o : Nat → FetchOutcome) : RunResult :=
  let url := el.href
  if checked.contains url || !isValidUrl url then
    { checked := checked, element := el, events := [] }
  else
    let pr := probeLoop f el url o 1 f.retryAttempts
    { checked := url :: checked, element := pr.1, events := pr.2 }

/-- `checkBrokenLinks()` over the scanned anchors of one cycle, each
paired with its own fetch oracle.  The per-anchor `checkedLinks`
check-and-add prefix of `validateLink` runs synchronously before its
first `await`, so the fan-out's interleaving is faithfully captured by
this sequential fold. -/
def checkBrokenLinks (f : TRSLinkFoundation) (checked : List String) :
    List (Element × (Nat → FetchOutcome)) → List String × List Event
  | [] => (checked, [])
  | (el, o) :: rest =>
    let r := validateLink f checked el o
    let rr := checkBrokenLinks f r.checked rest
    (rr.1, r.events ++ rr.2)

/-- How many times `fetch` was invoked for `url` in an event trace. -/
def fetchCount (url : String) (evs : List Event) : Nat :=
  evs.count (Event.fetch url)

/-- Whether a trace is free of correction activity (warnings and
correction logs). -/
def noCorrectionEvents (evs : List Event) : Bool :=
  evs.all fun e =>
    match e with
    | Event.warn _ _ => false
    | Event.correct _ _ _ => false
    | _ => true

/-! ## Deployment scripts

Two bash scripts deploy the site.  Both check `netlify.toml`, clean a
stale `out/` directory, check `NETLIFY_AUTH_TOKEN`, run `npm ci`,
`npm run build` and `npm run export`, each fatal on first failure
(`exit 1`).  One variant then runs `netlify deploy` once; the other
retries it up to `max_attempts = 3` times with `sleep 5` between
attempts.  The environment records each command's success; the run
returns the script's exit status and the ordered list of steps
executed. -/

inductive DeployEvent where
  | fileCheck
  | cleanOut
  | tokenCheck
  | npmVersion
  | npmCi
  | build
  | exportStep
  | deployAttempt (attempt : Nat)
  | sleepSec (seconds : Nat)
  deriving DecidableEq

structure DeployEnv where
  netlifyTomlExists : Bool
  outDirExists : Bool
  tokenSet : Bool
  npmInstalled : Bool
  npmCiOk : Bool
  buildOk : Bool
  exportOk : Bool
  deployOk : Nat → Bool

/-- The `while [ $attempt -le $max_attempts ]` retry loop around
`netlify deploy --prod --dir=out`: exit 0 on the first success; on
failure of attempt `max_attempts`, exit 1; otherwise `sleep 5` and try
again.  `fuel = maxAttempts - attempt + 1`. -/
def deployLoop (deployOk : Nat → Bool) (maxAttempts : Nat) :
    Nat → Nat → Nat × List DeployEvent
  | _, 0 => (1, [])
  | attempt, fuel + 1 =>
    if deployOk attempt then (0, [DeployEvent.deployAttempt attempt])
    else if attempt == maxAttempts then (1, [DeployEvent.deployAttempt attempt])
    else
      let rest := deployLoop deployOk maxAttempts (attempt + 1) fuel
      (rest.1, DeployEvent.deployAttempt attempt :: DeployEvent.sleepSec 5 :: rest.2)

/-- The steps both scripts share before the deploy step: file check,
conditional clean, token check. -/
def preludeEvents (env : DeployEnv) : List DeployEvent :=
  if env.outDirExists then [DeployEvent.fileCheck, DeployEvent.cleanOut]
  else [DeployEvent.fileCheck]

/-- `src/unnamed/part_000`: the deploy script with the retry loop (npm
version check included). -/
def runDeployRetry (env : DeployEnv) : Nat × List DeployEvent :=
  if !env.netlifyTomlExists then (1, [DeployEvent.fileCheck])
  else
    let p := preludeEvents env
    if !env.tokenSet then (1, p ++ [DeployEvent.tokenCheck])
    else if !env.npmInstalled then (1, p ++ [DeployEvent.tokenCheck, DeployEvent.npmVersion])
    else if !env.npmCiOk then
      (1, p ++ [DeployEvent.tokenCheck, DeployEvent.npmVersion, DeployEvent.npmCi])
    else if !env.buildOk then
      (1, p ++ [DeployEvent.tokenCheck, DeployEvent.npmVersion, DeployEvent.npmCi, DeployEvent.build])
    else if !env.exportOk then
      (1, p ++ [DeployEvent.tokenCheck, DeployEvent.npmVersion, DeployEvent.npmCi,
                DeployEvent.build, DeployEvent.exportStep])
    else
      let d := deployLoop env.deployOk 3 1 3
      (d.1, p ++ [DeployEvent.tokenCheck, DeployEvent.npmVersion, DeployEvent.npmCi,
                  DeployEvent.build, DeployEvent.exportStep] ++ d.2)

/-- `src/scripts/deploy.sh`: the single-attempt deploy script (no npm
version check, no retry loop). -/
def runDeployOnce (env : DeployEnv) : Nat × List DeployEvent :=
  if !env.netlifyTomlExists then (1, [DeployEvent.fileCheck])
  else
    let p := preludeEvents env
    if !env.tokenSet then (1, p ++ [DeployEvent.tokenCheck])
    else if !env.npmCiOk then (1, p ++ [DeployEvent.tokenCheck, DeployEvent.npmCi])
    else if !env.buildOk then
      (1, p ++ [DeployEvent.tokenCheck, DeployEvent.npmCi, DeployEvent.build])
    else if !env.exportOk then
      (1, p ++ [DeployEvent.tokenCheck, DeployEvent.npmCi, DeployEvent.build, DeployEvent.exportStep])
    else if env.deployOk 1 then
      (0, p ++ [DeployEvent.tokenCheck, DeployEvent.npmCi, DeployEvent.build,
                DeployEvent.exportStep, DeployEvent.deployAttempt 1])
    else
      (1, p ++ [DeployEvent.tokenCheck, DeployEvent.npmCi, DeployEvent.build,
                DeployEvent.exportStep, DeployEvent.deployAttempt 1])

/-- The steps that reach the network: dependency installation, build,
export (package scripts may fetch), and the hosting-provider deploy. -/
def noNetworkEvents (evs : List DeployEvent) : Bool :=
  evs.all fun e =>
    match e with
    | DeployEvent.npmCi => false
    | DeployEvent.build => false
    | DeployEvent.exportStep => false
    | DeployEvent.deployAttempt _ => false
    | _ => true

/-- How many deploy attempts a trace contains. -/
def deployAttemptCount (evs : List DeployEvent) : Nat :=
  evs.countP fun e =>
    match e with
    | DeployEvent.deployAttempt _ => true
    | _ => false

/-- All pre-deploy steps succeed, so the script reaches the deploy
loop. -/
def stepsOk (env : DeployEnv) : Prop :=
  env.netlifyTomlExists = true ∧ env.tokenSet = true ∧ env.npmInstalled = true ∧
    env.npmCiOk = true ∧ env.buildOk = true ∧ env.exportOk = true

instance (env : DeployEnv) : Decidable (stepsOk env) := by
  unfold stepsOk; infer_instance

/-! ## Helper lemmas -/

theorem validateLink_run (f : TRSLinkFoundation) {checked : List String} {el : Element}
    (o : Nat → FetchOutcome) (hfresh : checked.contains el.href = false)
    (hvalid : isValidUrl el.href = true) :
    validateLink f checked el o =
      { checked := el.href :: checked,
        element := (probeLoop f el el.href o 1 f.retryAttempts).1,
        events := (probeLoop f el el.href o 1 f.retryAttempts).2 } := by
  have hmem : el.href ∉ checked := by simpa using hfresh
  simp [validateLink, hmem, hvalid]

theorem probeLoop_all_rejected {el : Element} {url : String} {o : Nat → FetchOutcome}
    (h1 : o 1 = FetchOutcome.rejected) (h2 : o 2 = FetchOutcome.rejected)
    (h3 : o 3 = FetchOutcome.rejected) :
    probeLoop defaultFoundation el url o 1 3 =
      ((handleBrokenLink defaultFoundation el).1,
       [Event.fetch url, Event.sleep 1000, Event.fetch url, Event.sleep 2000,
        Event.fetch url, Event.warn 3 url] ++ (handleBrokenLink defaultFoundation el).2) := by
  simp [probeLoop, h1, h2, h3, defaultFoundation]

theorem mem_classListAdd (cs : List String) (c : String) : c ∈ classListAdd cs c := by
  unfold classListAdd
  split
  · assumption
  · simp

/-- The notice-append step in isolation: the count becomes 1 from 0 and
is otherwise unchanged. -/
theorem handleBrokenLink_noticeCount (f : TRSLinkFoundation) (el : Element) :
    ((handleBrokenLink f el).1).noticeCount = if el.noticeCount = 0 then 1 else el.noticeCount := by
  by_cases hc : canRedirectToAlternative el.href <;>
    simp [handleBrokenLink, hc] <;> split <;> simp_all

/-- Fields of the corrected element, by cases on pattern applicability. -/
theorem handleBrokenLink_fields (f : TRSLinkFoundation) (el : Element) :
    ((handleBrokenLink f el).1).href =
      (if canRedirectToAlternative el.href then findAlternative f el.href else f.fallbackUrl) ∧
    ((handleBrokenLink f el).1).title =
      some (if canRedirectToAlternative el.href
            then "Original: " ++ el.href ++ " | Redirected to working alternative"
            else "Original: " ++ el.href ++ " | Temporarily unavailable") ∧
    "trs-corrected-link" ∈ ((handleBrokenLink f el).1).classes ∧
    ((handleBrokenLink f el).1).dataOriginalUrl = some el.href := by
  by_cases hc : canRedirectToAlternative el.href <;>
    simp only [handleBrokenLink, hc, if_true, if_false, Bool.false_eq_true] <;>
    refine ⟨?_, ?_, ?_, ?_⟩ <;> split <;> simp [mem_classListAdd]

/-! ## Claims -/

/-- C8 (confirmed): an anchor whose href is not a valid absolute
http/https URL is skipped silently by `validateLink`: no fetch is issued
(empty event trace), the element is not mutated, no correction is
applied, and the checked set is unchanged. -/
theorem trs_c8_invalid_url_skipped (f : TRSLinkFoundation) (checked : List String)
    (el : Element) (o : Nat → FetchOutcome) (h : isValidUrl el.href = false) :
    validateLink f checked el o = { checked := checked, element := el, events := [] } := by
  simp [validateLink, h]

/-- C8 witness: the spec's `ftp://x` scenario: not probed, not mutated. -/
theorem trs_c8_invalid_url_skipped_witness :
    isValidUrl "ftp://x" = false ∧
    validateLink defaultFoundation [] (mkAnchor "ftp://x") (fun _ => FetchOutcome.rejected) =
      { checked := [], element := mkAnchor "ftp://x", events := [] } :=
  ⟨by decide,
   trs_c8_invalid_url_skipped defaultFoundation [] (mkAnchor "ftp://x")
     (fun _ => FetchOutcome.rejected) (by decide)⟩

/-- C7 (confirmed): the notice-append step of the Correction Engine is
idempotent: starting from an element with no notice node, the first
correction appends exactly one notice, and a second correction on the
corrected element still leaves exactly one notice node. -/
theorem trs_c7_notice_idempotent (f : TRSLinkFoundation) (el : Element)
    (h : el.noticeCount = 0) :
    ((handleBrokenLink f el).1).noticeCount = 1 ∧
    ((handleBrokenLink f ((handleBrokenLink f el).1)).1).noticeCount = 1 := by
  have h1 := handleBrokenLink_noticeCount f el
  rw [h] at h1
  simp only [if_true, reduceIte] at h1
  have h2 := handleBrokenLink_noticeCount f ((handleBrokenLink f el).1)
  rw [h1] at h2
  simp at h2
  exact ⟨h1, h2⟩

/-- C7 witness: two corrections on a fresh broken anchor leave one
notice node. -/
theorem trs_c7_notice_idempotent_witness :
    ((handleBrokenLink defaultFoundation (mkAnchor "http://seven.example/")).1).noticeCount = 1 ∧
    ((handleBrokenLink defaultFoundation
        ((handleBrokenLink defaultFoundation (mkAnchor "http://seven.example/")).1)).1).noticeCount = 1 :=
  trs_c7_notice_idempotent defaultFoundation (mkAnchor "http://seven.example/") rfl

/-- The Correction Engine's classification as the spec words it: an
ordered list of rewrite patterns, the first whose substring is present
and whose substitution differs from the original wins, else the fixed
fallback. -/
def applyFirstRewrite (url fallback : String) : List (String × String) → String
  | [] => fallback
  | (pat, rep) :: rest =>
    if jsIncludes url pat && jsReplaceFirst url pat rep != url then jsReplaceFirst url pat rep
    else applyFirstRewrite url fallback rest

def findAlternativeSpec (url : String) : String :=
  applyFirstRewrite url "/404.html"
    [("http://", "https://"), ("www.", ""), ("github.com", "github.io")]

/-- C3 (confirmed): `findAlternative` chooses the replacement by checking
`http://`→`https://`, `www.` removal, `github.com`→`github.io` in that
fixed order, applying the first pattern whose substring is present and
whose substitution differs from the original URL, and falls back to
`/404.html` otherwise. -/
theorem trs_c3_rewrite_order (url : String) :
    findAlternative defaultFoundation url = findAlternativeSpec url := by
  simp only [findAlternative, findAlternativeSpec, applyFirstRewrite, defaultFoundation]

/-- C5 (confirmed): when all three probe attempts fail, the Correction
Engine sets the element's href to the chosen replacement, sets a title
recording the original URL and the outcome type, adds the
`trs-corrected-link` class, and stores the original URL in
`data-original-url`. -/
theorem trs_c5_correction_mutation (checked : List String) (el : Element)
    (o : Nat → FetchOutcome) (hfresh : checked.contains el.href = false)
    (hvalid : isValidUrl el.href = true) (h1 : o 1 = FetchOutcome.rejected)
    (h2 : o 2 = FetchOutcome.rejected) (h3 : o 3 = FetchOutcome.rejected) :
    (validateLink defaultFoundation checked el o).element.href =
      (if canRedirectToAlternative el.href then findAlternative defaultFoundation el.href
       else "/404.html") ∧
    (validateLink defaultFoundation checked el o).element.title =
      some (if canRedirectToAlternative el.href
            then "Original: " ++ el.href ++ " | Redirected to working alternative"
            else "Original: " ++ el.href ++ " | Temporarily unavailable") ∧
    "trs-corrected-link" ∈ (validateLink defaultFoundation checked el o).element.classes ∧
    (validateLink defaultFoundation checked el o).element.dataOriginalUrl = some el.href := by
  rw [validateLink_run defaultFoundation o hfresh hvalid]
  have he : (probeLoop defaultFoundation el el.href o 1 defaultFoundation.retryAttempts).1 =
      (handleBrokenLink defaultFoundation el).1 := by
    rw [show defaultFoundation.retryAttempts = 3 from rfl, probeLoop_all_rejected h1 h2 h3]
  simp only [he]
  exact handleBrokenLink_fields defaultFoundation el

/-- C5 witness: the spec's scenario `http://example.com/old` with all 3
probes failing: final href `https://example.com/old`, correction class,
`data-original-url` preserved. -/
theorem trs_c5_correction_mutation_witness :
    (validateLink defaultFoundation [] (mkAnchor "http://example.com/old")
      (fun _ => FetchOutcome.rejected)).element.href = "https://example.com/old" ∧
    "trs-corrected-link" ∈ (validateLink defaultFoundation [] (mkAnchor "http://example.com/old")
      (fun _ => FetchOutcome.rejected)).element.classes ∧
    (validateLink defaultFoundation [] (mkAnchor "http://example.com/old")
      (fun _ => FetchOutcome.rejected)).element.dataOriginalUrl = some "http://example.com/old" := by
  have h := trs_c5_correction_mutation [] (mkAnchor "http://example.com/old")
    (fun _ => FetchOutcome.rejected) (by decide) (by decide) rfl rfl rfl
  exact ⟨h.1.trans (by decide), h.2.2.1, h.2.2.2⟩

theorem fetch_not_mem_handleBrokenLink (f : TRSLinkFoundation) (el : Element) (u : String) :
    Event.fetch u ∉ (handleBrokenLink f el).2 := by
  by_cases hc : canRedirectToAlternative el.href <;>
    simp only [handleBrokenLink, hc, if_true, if_false, Bool.false_eq_true, logCorrection] <;>
    by_cases hl : f.logErrors = true <;> simp [hl]

theorem fetchCount_handleBrokenLink (f : TRSLinkFoundation) (el : Element) (u : String) :
    fetchCount u (handleBrokenLink f el).2 = 0 :=
  List.count_eq_zero.mpr (fetch_not_mem_handleBrokenLink f el u)

theorem count_cons_le_succ (a b : Event) (l : List Event) :
    (b :: l).count a ≤ l.count a + 1 := by
  rw [List.count_cons]
  split <;> omega

theorem probeLoop_fetchCount_le (f : TRSLinkFoundation) (el : Element) (url u : String)
    (o : Nat → FetchOutcome) :
    ∀ fuel attempt, fetchCount u (probeLoop f el url o attempt fuel).2 ≤ fuel := by
  intro fuel
  induction fuel with
  | zero => intro attempt; simp [probeLoop, fetchCount]
  | succ n ih =>
    intro attempt
    have ihn := ih (attempt + 1)
    cases ho : o attempt with
    | resolved r =>
      by_cases hr : (r.ok || r.typeOpaque) = true
      · simp only [probeLoop, ho, hr, if_true]
        have h1 := count_cons_le_succ (Event.fetch u) (Event.fetch url) []
        simp only [List.count_nil] at h1
        simp only [fetchCount]
        omega
      · simp only [Bool.not_eq_true] at hr
        simp only [probeLoop, ho, hr, Bool.false_eq_true, if_false]
        have h1 := count_cons_le_succ (Event.fetch u) (Event.fetch url)
          (probeLoop f el url o (attempt + 1) n).2
        simp only [fetchCount] at ihn ⊢
        omega
    | rejected =>
      by_cases ha : (attempt == f.retryAttempts) = true
      · simp only [probeLoop, ho, ha, if_true]
        have h0 : Event.fetch u ∉
            (Event.warn attempt url :: (handleBrokenLink f el).2) := by
          simp [fetch_not_mem_handleBrokenLink f el u]
        have h0' : (Event.warn attempt url :: (handleBrokenLink f el).2).count (Event.fetch u) = 0 :=
          List.count_eq_zero.mpr h0
        have h1 := count_cons_le_succ (Event.fetch u) (Event.fetch url)
          (Event.warn attempt url :: (handleBrokenLink f el).2)
        simp only [fetchCount]
        omega
      · simp only [Bool.not_eq_true] at ha
        simp only [probeLoop, ho, ha, Bool.false_eq_true, if_false]
        have h1 := count_cons_le_succ (Event.fetch u) (Event.fetch url)
          (Event.sleep (f.retryDelay * attempt) :: (probeLoop f el url o (attempt + 1) n).2)
        have h4 : List.count (Event.fetch u)
            (Event.sleep (f.retryDelay * attempt) :: (probeLoop f el url o (attempt + 1) n).2) =
            List.count (Event.fetch u) (probeLoop f el url o (attempt + 1) n).2 :=
          List.count_cons_of_ne (by simp) _
        simp only [fetchCount] at ihn ⊢
        omega

theorem fetch_ne_not_mem_probeLoop (f : TRSLinkFoundation) (el : Element) (url : String)
    (o : Nat → FetchOutcome) (u : String) (hne : u ≠ url) :
    ∀ fuel attempt, Event.fetch u ∉ (probeLoop f el url o attempt fuel).2 := by
  intro fuel
  induction fuel with
  | zero => intro attempt; simp [probeLoop]
  | succ n ih =>
    intro attempt
    have ihn := ih (attempt + 1)
    cases ho : o attempt with
    | resolved r =>
      by_cases hr : (r.ok || r.typeOpaque) = true
      · simp only [probeLoop, ho, hr, if_true]
        simp [hne]
      · simp only [Bool.not_eq_true] at hr
        simp only [probeLoop, ho, hr, Bool.false_eq_true, if_false]
        simp [hne, ihn]
    | rejected =>
      by_cases ha : (attempt == f.retryAttempts) = true
      · simp only [probeLoop, ho, ha, if_true]
        simp [hne, fetch_not_mem_handleBrokenLink f el u]
      · simp only [Bool.not_eq_true] at ha
        simp only [probeLoop, ho, ha, Bool.false_eq_true, if_false]
        simp [hne, ihn]

theorem probeLoop_fetch_ne (f : TRSLinkFoundation) (el : Element) (url : String)
    (o : Nat → FetchOutcome) (u : String) (hne : u ≠ url) :
    ∀ fuel attempt, fetchCount u (probeLoop f el url o attempt fuel).2 = 0 := by
  intro fuel attempt
  exact List.count_eq_zero.mpr (fetch_ne_not_mem_probeLoop f el url o u hne fuel attempt)

/-- C1 counterexample input: a valid fresh URL whose every probe attempt
RESOLVES with a response that is neither `ok` nor opaque (for example a
same-origin 404, whose response type is `basic`). -/
def c1Anchor : Element := mkAnchor "http://dead.example/"

def c1Oracle : Nat → FetchOutcome := fun _ => FetchOutcome.resolved ⟨false, false⟩

/-- C1 counterexample: with every attempt failing by resolving to a
not-ok, non-opaque response, all 3 attempts fail, yet validate inserts no
backoff sleep between attempts, logs no warning, and never hands the
element to the Correction Engine (the element is returned unchanged) —
contradicting the claim that backoff and correction happen for every kind
of failed attempt. -/
theorem trs_c1_resolved_bad_counterexample :
    (validateLink defaultFoundation [] c1Anchor c1Oracle).events =
      [Event.fetch "http://dead.example/", Event.fetch "http://dead.example/",
       Event.fetch "http://dead.example/"] ∧
    (validateLink defaultFoundation [] c1Anchor c1Oracle).element = c1Anchor ∧
    Event.sleep 1000 ∉ (validateLink defaultFoundation [] c1Anchor c1Oracle).events ∧
    Event.warn 3 "http://dead.example/" ∉ (validateLink defaultFoundation [] c1Anchor c1Oracle).events := by
  decide

/-- C1 (corrected): for a fresh valid URL, at most 3 probe attempts are
made; after each attempt that fails BY REJECTION and is not the last,
validate sleeps `retryDelay × attemptNumber` (1000 ms, then 2000 ms); and
when all 3 attempts fail by rejection, the full trace is fetch, sleep
1000, fetch, sleep 2000, fetch, then a warning carrying the attempt count
and the URL, and the element is handed to `handleBrokenLink`.  (Attempts
that fail by resolving to a not-ok, non-opaque response retry immediately
and are never handed to the Correction Engine — see the
counterexample.) -/
theorem trs_c1_retry_backoff (checked : List String) (el : Element)
    (o : Nat → FetchOutcome) (hfresh : checked.contains el.href = false)
    (hvalid : isValidUrl el.href = true) :
    fetchCount el.href (validateLink defaultFoundation checked el o).events ≤ 3 ∧
    (o 1 = FetchOutcome.rejected →
       Event.sleep 1000 ∈ (validateLink defaultFoundation checked el o).events) ∧
    (o 1 = FetchOutcome.rejected → o 2 = FetchOutcome.rejected →
       Event.sleep 2000 ∈ (validateLink defaultFoundation checked el o).events) ∧
    (o 1 = FetchOutcome.rejected → o 2 = FetchOutcome.rejected → o 3 = FetchOutcome.rejected →
       (validateLink defaultFoundation checked el o).events =
         [Event.fetch el.href, Event.sleep 1000, Event.fetch el.href, Event.sleep 2000,
          Event.fetch el.href, Event.warn 3 el.href] ++ (handleBrokenLink defaultFoundation el).2 ∧
       (validateLink defaultFoundation checked el o).element =
         (handleBrokenLink defaultFoundation el).1) := by
  rw [validateLink_run defaultFoundation o hfresh hvalid]
  refine ⟨?_, ?_, ?_, ?_⟩
  · exact probeLoop_fetchCount_le defaultFoundation el el.href el.href o 3 1
  · intro h1
    simp [probeLoop, h1, defaultFoundation]
  · intro h1 h2
    simp [probeLoop, h1, h2, defaultFoundation]
  · intro h1 h2 h3
    rw [show defaultFoundation.retryAttempts = 3 from rfl, probeLoop_all_rejected h1 h2 h3]
    exact ⟨rfl, rfl⟩

/-- C1 witness: a fresh valid URL whose three attempts all reject shows
the backoff waits, the warning and the hand-off concretely. -/
theorem trs_c1_retry_backoff_witness :
    Event.sleep 1000 ∈ (validateLink defaultFoundation [] (mkAnchor "http://one.example/")
      (fun _ => FetchOutcome.rejected)).events ∧
    Event.sleep 2000 ∈ (validateLink defaultFoundation [] (mkAnchor "http://one.example/")
      (fun _ => FetchOutcome.rejected)).events ∧
    (validateLink defaultFoundation [] (mkAnchor "http://one.example/")
      (fun _ => FetchOutcome.rejected)).events =
      [Event.fetch "http://one.example/", Event.sleep 1000, Event.fetch "http://one.example/",
       Event.sleep 2000, Event.fetch "http://one.example/", Event.warn 3 "http://one.example/"] ++
        (handleBrokenLink defaultFoundation (mkAnchor "http://one.example/")).2 := by
  have h := trs_c1_retry_backoff [] (mkAnchor "http://one.example/")
    (fun _ => FetchOutcome.rejected) (by decide) (by decide)
  exact ⟨h.2.1 rfl, h.2.2.1 rfl rfl, (h.2.2.2 rfl rfl rfl).1⟩

theorem fetchCount_validateLink_ne (f : TRSLinkFoundation) (checked : List String)
    (el : Element) (o : Nat → FetchOutcome) (u : String) (hne : u ≠ el.href) :
    fetchCount u (validateLink f checked el o).events = 0 := by
  by_cases hg : (checked.contains el.href || !isValidUrl el.href) = true
  · have hp : el.href ∈ checked ∨ isValidUrl el.href = false := by simpa using hg
    simp [validateLink, hp, fetchCount]
  · simp only [validateLink]
    rw [if_neg (by simpa using hg)]
    exact probeLoop_fetch_ne f el el.href o u hne f.retryAttempts 1

theorem validateLink_skip_checked (f : TRSLinkFoundation) (checked : List String)
    (el : Element) (o : Nat → FetchOutcome) (h : el.href ∈ checked) :
    (validateLink f checked el o).events = [] := by
  simp [validateLink, h]

theorem validateLink_checked_mem (f : TRSLinkFoundation) (checked : List String)
    (el : Element) (o : Nat → FetchOutcome) (u : String) (hu : u ∈ checked) :
    u ∈ (validateLink f checked el o).checked := by
  by_cases hg : (checked.contains el.href || !isValidUrl el.href) = true
  · have hp : el.href ∈ checked ∨ isValidUrl el.href = false := by simpa using hg
    simpa [validateLink, hp] using hu
  · simp only [validateLink]
    rw [if_neg (by simpa using hg)]
    exact List.mem_cons_of_mem _ hu

theorem validateLink_checked_cases (f : TRSLinkFoundation) (checked : List String)
    (el : Element) (o : Nat → FetchOutcome) :
    (validateLink f checked el o).checked = checked ∨
    (validateLink f checked el o).checked = el.href :: checked := by
  by_cases hg : (checked.contains el.href || !isValidUrl el.href) = true
  · have hp : el.href ∈ checked ∨ isValidUrl el.href = false := by simpa using hg
    left
    simp [validateLink, hp]
  · right
    simp only [validateLink]
    rw [if_neg (by simpa using hg)]

/-- Per-cycle bound: a URL already in the checked set is never fetched;
a fresh URL is fetched by at most one validation run, hence at most
`retryAttempts` times. -/
theorem scan_fetchCount_bound (f : TRSLinkFoundation) (u : String) :
    ∀ (pairs : List (Element × (Nat → FetchOutcome))) (checked : List String),
      fetchCount u (checkBrokenLinks f checked pairs).2 ≤
        if u ∈ checked then 0 else f.retryAttempts := by
  intro pairs
  induction pairs with
  | nil => intro checked; simp [checkBrokenLinks, fetchCount]
  | cons p rest ih =>
    intro checked
    obtain ⟨el, o⟩ := p
    simp only [checkBrokenLinks]
    rw [fetchCount, List.count_append]
    by_cases hu : u ∈ checked
    · have h1 : fetchCount u (validateLink f checked el o).events = 0 := by
        by_cases he : u = el.href
        · subst he; simp [validateLink_skip_checked f checked el o hu, fetchCount]
        · exact fetchCount_validateLink_ne f checked el o u he
      have h2 := ih (validateLink f checked el o).checked
      rw [if_pos (validateLink_checked_mem f checked el o u hu)] at h2
      rw [if_pos hu]
      rw [fetchCount] at h1
      rw [fetchCount] at h2
      omega
    · rw [if_neg hu]
      by_cases he : u = el.href
      · subst he
        by_cases hv : isValidUrl el.href = true
        · have hfresh : checked.contains el.href = false := by simpa using hu
          rw [validateLink_run f o hfresh hv]
          have hown : (List.count (Event.fetch el.href)
              (probeLoop f el el.href o 1 f.retryAttempts).2) ≤ f.retryAttempts := by
            have := probeLoop_fetchCount_le f el el.href el.href o f.retryAttempts 1
            simpa [fetchCount] using this
          have hrest := ih (el.href :: checked)
          rw [if_pos (by simp)] at hrest
          rw [fetchCount] at hrest
          simp only []
          omega
        · have hv' : isValidUrl el.href = false := by simpa using hv
          have hskip := trs_c8_invalid_url_skipped f checked el o hv'
          rw [hskip]
          have hrest := ih checked
          rw [if_neg hu] at hrest
          rw [fetchCount] at hrest
          simp only [List.count_nil]
          omega
      · have h1 := fetchCount_validateLink_ne f checked el o u he
        rw [fetchCount] at h1
        have hrest := ih (validateLink f checked el o).checked
        have hb : (if u ∈ (validateLink f checked el o).checked then 0 else f.retryAttempts) ≤
            f.retryAttempts := by split <;> omega
        have := le_trans hrest hb
        rw [fetchCount] at this
        omega

/-- C2 counterexample input: two anchors sharing one broken href. -/
def c2Pairs : List (Element × (Nat → FetchOutcome)) :=
  [(mkAnchor "http://two.example/", fun _ => FetchOutcome.rejected),
   (mkAnchor "http://two.example/", fun _ => FetchOutcome.rejected)]

/-- C2 counterexample: within one scan cycle over two anchors sharing one
href, the probe primitive `fetch` is invoked 3 times for that URL (once
per retry attempt of the single validation run), not at most once. -/
theorem trs_c2_fetch_thrice_counterexample :
    fetchCount "http://two.example/" (checkBrokenLinks defaultFoundation [] c2Pairs).2 = 3 ∧
    ¬ fetchCount "http://two.example/" (checkBrokenLinks defaultFoundation [] c2Pairs).2 ≤ 1 := by
  decide

/-- C2 (corrected): within one scan cycle, a URL is validated by at most
one probe loop regardless of how many anchors reference it, so `fetch` is
invoked for it at most `retryAttempts = 3` times (not at most once); a
URL already in the Checked-URL Set is never fetched at all, because
`validateLink` adds the URL to the set before the probe loop and returns
immediately — with no events and no element mutation — for a URL already
in the set. -/
theorem trs_c2_dedup_bound (checked : List String)
    (pairs : List (Element × (Nat → FetchOutcome))) (u : String) :
    fetchCount u (checkBrokenLinks defaultFoundation checked pairs).2 ≤ 3 ∧
    (u ∈ checked → fetchCount u (checkBrokenLinks defaultFoundation checked pairs).2 = 0) ∧
    (∀ (el : Element) (o : Nat → FetchOutcome), el.href = u → u ∈ checked →
       validateLink defaultFoundation checked el o =
         { checked := checked, element := el, events := [] }) := by
  refine ⟨?_, ?_, ?_⟩
  · have h := scan_fetchCount_bound defaultFoundation u pairs checked
    have hb : (if u ∈ checked then 0 else defaultFoundation.retryAttempts) ≤ 3 := by
      split <;> simp [defaultFoundation]
    omega
  · intro hu
    have h := scan_fetchCount_bound defaultFoundation u pairs checked
    rw [if_pos hu] at h
    omega
  · intro el o he hu
    have hp : el.href ∈ checked ∨ isValidUrl el.href = false := Or.inl (he ▸ hu)
    simp [validateLink, hp]

theorem markLinkHealthy_fields (el : Element) :
    (markLinkHealthy el).href = el.href ∧ (markLinkHealthy el).title = el.title ∧
    (markLinkHealthy el).dataOriginalUrl = el.dataOriginalUrl ∧
    (markLinkHealthy el).noticeCount = el.noticeCount ∧
    "trs-verified-link" ∈ (markLinkHealthy el).classes := by
  simp [markLinkHealthy, mem_classListAdd]

/-- C4 counterexample input: the spec's cross-origin anchor whose probe
resolves with an opaque response on the first attempt. -/
def c4Anchor : Element := mkAnchor "https://cross-origin.example/"

def c4Oracle : Nat → FetchOutcome := fun _ => FetchOutcome.resolved ⟨false, true⟩

/-- C4 counterexample: an anchor whose cross-origin probe returns an
opaque response is NOT left unmodified: `markLinkHealthy` mutates it,
adding the `trs-verified-link` class and setting the `data-trs-verified`
attribute, so its final state differs from its initial state. -/
theorem trs_c4_marking_mutates_counterexample :
    (validateLink defaultFoundation [] c4Anchor c4Oracle).element ≠ c4Anchor ∧
    (validateLink defaultFoundation [] c4Anchor c4Oracle).element.classes ≠ c4Anchor.classes ∧
    (validateLink defaultFoundation [] c4Anchor c4Oracle).element.trsVerified = true := by
  decide

/-- C4 (corrected): for every anchor whose probe resolves — at any
attempt `k ≤ 3`, every earlier attempt having failed — with a response
that is ok or opaque, the link is treated as healthy: the element is
exactly `markLinkHealthy el`, so its href, title, `data-original-url` and
notice children are untouched, no warning and no correction event is
emitted, and the element is (mutated only by the healthy marking) given
the `trs-verified-link` class. -/
theorem trs_c4_healthy_marked (checked : List String) (el : Element)
    (o : Nat → FetchOutcome) (k : Nat) (r : Response)
    (hfresh : checked.contains el.href = false) (hvalid : isValidUrl el.href = true)
    (hk1 : 1 ≤ k) (hk3 : k ≤ 3) (hres : o k = FetchOutcome.resolved r)
    (hok : (r.ok || r.typeOpaque) = true)
    (hprev : ∀ j, 1 ≤ j → j < k → o j = FetchOutcome.rejected ∨
       ∃ r', o j = FetchOutcome.resolved r' ∧ (r'.ok || r'.typeOpaque) = false) :
    (validateLink defaultFoundation checked el o).element = markLinkHealthy el ∧
    (validateLink defaultFoundation checked el o).element.href = el.href ∧
    (validateLink defaultFoundation checked el o).element.title = el.title ∧
    (validateLink defaultFoundation checked el o).element.dataOriginalUrl = el.dataOriginalUrl ∧
    (validateLink defaultFoundation checked el o).element.noticeCount = el.noticeCount ∧
    "trs-verified-link" ∈ (validateLink defaultFoundation checked el o).element.classes ∧
    noCorrectionEvents (validateLink defaultFoundation checked el o).events = true := by
  rw [validateLink_run defaultFoundation o hfresh hvalid]
  have key : (probeLoop defaultFoundation el el.href o 1 defaultFoundation.retryAttempts).1 =
      markLinkHealthy el ∧
      noCorrectionEvents
        (probeLoop defaultFoundation el el.href o 1 defaultFoundation.retryAttempts).2 = true := by
    interval_cases k
    · constructor <;> simp [probeLoop, hres, hok, noCorrectionEvents, defaultFoundation]
    · rcases hprev 1 (by omega) (by omega) with h1 | ⟨r1, h1, hr1⟩
      · constructor <;>
          simp [probeLoop, h1, hres, hok, noCorrectionEvents, defaultFoundation]
      · constructor <;>
          simp [probeLoop, h1, hres, hok, noCorrectionEvents, defaultFoundation, hr1]
    · rcases hprev 1 (by omega) (by omega) with h1 | ⟨r1, h1, hr1⟩ <;>
        rcases hprev 2 (by omega) (by omega) with h2 | ⟨r2, h2, hr2⟩
      · constructor <;>
          simp [probeLoop, h1, h2, hres, hok, noCorrectionEvents, defaultFoundation]
      · constructor <;>
          simp [probeLoop, h1, h2, hres, hok, noCorrectionEvents, defaultFoundation, hr2]
      · constructor <;>
          simp [probeLoop, h1, h2, hres, hok, noCorrectionEvents, defaultFoundation, hr1]
      · constructor <;>
          simp [probeLoop, h1, h2, hres, hok, noCorrectionEvents, defaultFoundation, hr1, hr2]
  have hf := markLinkHealthy_fields el
  simp only [key.1, key.2]
  refine ⟨trivial, hf.1, hf.2.1, hf.2.2.1, hf.2.2.2.1, hf.2.2.2.2, trivial⟩

/-- C4 witness: the opaque cross-origin scenario concretely: element
becomes exactly the healthy-marked element, href preserved, verified
class present, no correction activity. -/
theorem trs_c4_healthy_marked_witness :
    (validateLink defaultFoundation [] c4Anchor c4Oracle).element = markLinkHealthy c4Anchor ∧
    (validateLink defaultFoundation [] c4Anchor c4Oracle).element.href =
      "https://cross-origin.example/" ∧
    "trs-verified-link" ∈ (validateLink defaultFoundation [] c4Anchor c4Oracle).element.classes ∧
    noCorrectionEvents (validateLink defaultFoundation [] c4Anchor c4Oracle).events = true := by
  have h := trs_c4_healthy_marked [] c4Anchor c4Oracle 1 ⟨false, true⟩ (by decide) (by decide)
    (by decide) (by decide) rfl (by decide)
    (by intro j hj1 hj2; exact absurd (hj1.trans_lt hj2) (by omega))
  exact ⟨h.1, h.2.1.trans rfl, h.2.2.2.2.2.1, h.2.2.2.2.2.2⟩

/-- C9 (confirmed): with `NETLIFY_AUTH_TOKEN` unset, BOTH deploy script
variants exit with status 1 before any network step runs: no dependency
installation, no build, no export, no deploy attempt appears in the
executed-step trace. -/
theorem trs_c9_token_guard (env : DeployEnv) (h : env.tokenSet = false) :
    (runDeployOnce env).1 = 1 ∧ (runDeployRetry env).1 = 1 ∧
    noNetworkEvents (runDeployOnce env).2 = true ∧
    noNetworkEvents (runDeployRetry env).2 = true := by
  obtain ⟨toml, outd, tok, npmv, ci, bld, ex, dok⟩ := env
  simp only at h
  subst h
  cases toml <;> cases outd <;>
    simp [runDeployOnce, runDeployRetry, preludeEvents, noNetworkEvents]

/-- C9 witness input: everything available except the auth token. -/
def c9Env : DeployEnv :=
  { netlifyTomlExists := true, outDirExists := false, tokenSet := false,
    npmInstalled := true, npmCiOk := true, buildOk := true, exportOk := true,
    deployOk := fun _ => true }

/-- C9 witness: the token-unset environment exits 1 from both script
variants with no network step executed. -/
theorem trs_c9_token_guard_witness :
    c9Env.tokenSet = false ∧
    (runDeployOnce c9Env).1 = 1 ∧ (runDeployRetry c9Env).1 = 1 ∧
    noNetworkEvents (runDeployOnce c9Env).2 = true ∧
    noNetworkEvents (runDeployRetry c9Env).2 = true := by
  have h := trs_c9_token_guard c9Env rfl
  exact ⟨rfl, h.1, h.2.1, h.2.2.1, h.2.2.2⟩

/-- Exhaustive behaviour of the 3-attempt deploy loop. -/
theorem deployLoop_bounds (dok : Nat → Bool) :
    deployAttemptCount (deployLoop dok 3 1 3).2 ≤ 3 ∧
    (deployLoop dok 3 1 3).2.count DeployEvent.npmCi = 0 ∧
    (deployLoop dok 3 1 3).2.count DeployEvent.build = 0 ∧
    (deployLoop dok 3 1 3).2.count DeployEvent.exportStep = 0 ∧
    (∀ s, DeployEvent.sleepSec s ∈ (deployLoop dok 3 1 3).2 → s = 5) ∧
    (dok 1 = false → DeployEvent.sleepSec 5 ∈ (deployLoop dok 3 1 3).2 ∧
       DeployEvent.deployAttempt 2 ∈ (deployLoop dok 3 1 3).2) ∧
    (dok 1 = false → dok 2 = false → dok 3 = false →
       (deployLoop dok 3 1 3).1 = 1 ∧ deployAttemptCount (deployLoop dok 3 1 3).2 = 3) ∧
    (dok 1 = true → (deployLoop dok 3 1 3).1 = 0 ∧
       deployAttemptCount (deployLoop dok 3 1 3).2 = 1) := by
  cases hd1 : dok 1 <;> cases hd2 : dok 2 <;> cases hd3 : dok 3 <;>
    simp [deployLoop, hd1, hd2, hd3, deployAttemptCount, List.count_cons]

/-- C6 (confirmed): the retrying deploy script makes at most 3 deploy
attempts with only fixed 5-second pauses between them, and treats every
earlier step as non-retryable (it appears at most once in the trace) and
fatal on first failure (exit 1 with no later step executed); the deploy
loop exits 0 on the first success and 1 after 3 failures. -/
theorem trs_c6_deploy_retry_policy (env : DeployEnv) :
    deployAttemptCount (runDeployRetry env).2 ≤ 3 ∧
    (runDeployRetry env).2.count DeployEvent.npmCi ≤ 1 ∧
    (runDeployRetry env).2.count DeployEvent.build ≤ 1 ∧
    (runDeployRetry env).2.count DeployEvent.exportStep ≤ 1 ∧
    (∀ s, DeployEvent.sleepSec s ∈ (runDeployRetry env).2 → s = 5) ∧
    (env.netlifyTomlExists = true → env.tokenSet = true → env.npmInstalled = true →
       env.npmCiOk = false → (runDeployRetry env).1 = 1 ∧
       (runDeployRetry env).2.count DeployEvent.npmCi = 1 ∧
       (runDeployRetry env).2.count DeployEvent.build = 0 ∧
       deployAttemptCount (runDeployRetry env).2 = 0) ∧
    (env.netlifyTomlExists = true → env.tokenSet = true → env.npmInstalled = true →
       env.npmCiOk = true → env.buildOk = false → (runDeployRetry env).1 = 1 ∧
       (runDeployRetry env).2.count DeployEvent.build = 1 ∧
       (runDeployRetry env).2.count DeployEvent.exportStep = 0 ∧
       deployAttemptCount (runDeployRetry env).2 = 0) ∧
    (env.netlifyTomlExists = true → env.tokenSet = true → env.npmInstalled = true →
       env.npmCiOk = true → env.buildOk = true → env.exportOk = false →
       (runDeployRetry env).1 = 1 ∧
       (runDeployRetry env).2.count DeployEvent.exportStep = 1 ∧
       deployAttemptCount (runDeployRetry env).2 = 0) ∧
    (stepsOk env → env.deployOk 1 = false →
       DeployEvent.sleepSec 5 ∈ (runDeployRetry env).2 ∧
       DeployEvent.deployAttempt 2 ∈ (runDeployRetry env).2) ∧
    (stepsOk env → env.deployOk 1 = false → env.deployOk 2 = false → env.deployOk 3 = false →
       (runDeployRetry env).1 = 1 ∧ deployAttemptCount (runDeployRetry env).2 = 3) ∧
    (stepsOk env → env.deployOk 1 = true →
       (runDeployRetry env).1 = 0 ∧ deployAttemptCount (runDeployRetry env).2 = 1) := by
  obtain ⟨toml, outd, tok, npmv, ci, bld, ex, dok⟩ := env
  cases toml with
  | false =>
    cases outd <;> simp [runDeployRetry, preludeEvents, deployAttemptCount, stepsOk]
  | true =>
  cases tok with
  | false =>
    cases outd <;> simp [runDeployRetry, preludeEvents, deployAttemptCount, stepsOk]
  | true =>
  cases npmv with
  | false =>
    cases outd <;> simp [runDeployRetry, preludeEvents, deployAttemptCount, stepsOk]
  | true =>
  cases ci with
  | false =>
    cases outd <;> simp [runDeployRetry, preludeEvents, deployAttemptCount, stepsOk, List.count_cons]
  | true =>
  cases bld with
  | false =>
    cases outd <;> simp [runDeployRetry, preludeEvents, deployAttemptCount, stepsOk, List.count_cons]
  | true =>
  cases ex with
  | false =>
    cases outd <;> simp [runDeployRetry, preludeEvents, deployAttemptCount, stepsOk, List.count_cons]
  | true =>
  obtain ⟨b1, b2, b3, b4, b5, b6, b7, b8⟩ := deployLoop_bounds dok
  simp only [deployAttemptCount] at b1 b7 b8
  cases outd <;>
    refine ⟨?_, ?_, ?_, ?_, ?_, ?_, ?_, ?_, ?_, ?_, ?_⟩ <;>
    simp [runDeployRetry, preludeEvents, deployAttemptCount, stepsOk,
      List.count_cons, List.count_append, List.countP_cons, List.countP_append] <;>
    first
      | omega
      | exact b2
      | exact b3
      | exact b4
      | exact fun s hs => b5 s hs
      | (intro hd1; simp [(b6 hd1).1, (b6 hd1).2])
      | (intro hd1 hd2 hd3;
         exact ⟨(b7 hd1 hd2 hd3).1, by have := (b7 hd1 hd2 hd3).2; omega⟩)
      | (intro hd1; exact ⟨(b8 hd1).1, by have := (b8 hd1).2; omega⟩)

/-- A URL of the shape every probed href has: it begins with `http://`
or `https://`. -/
def startsWithHttpScheme (url : String) : Bool :=
  "http://".data.isPrefixOf url.data || "https://".data.isPrefixOf url.data

theorem isPrefixOf_false_of_head_ne {c d : Char} (l1 l2 : List Char) (h : c ≠ d) :
    (c :: l1).isPrefixOf (d :: l2) = false := by
  cases hb : (c :: l1).isPrefixOf (d :: l2) with
  | false => rfl
  | true =>
    rw [ List.isPrefixOf_iff_prefix] at hb
    obtain ⟨t, ht⟩ := hb
    injection ht with h1 _
    exact absurd h1 h

theorem ne_of_data_head {s t : String} {c d : Char} {l1 l2 : List Char}
    (hs : s.data = c :: l1) (ht : t.data = d :: l2) (hcd : c ≠ d) : s ≠ t := by
  intro he
  rw [he, ht] at hs
  injection hs with h1 _
  exact hcd h1.symm

theorem starts_http_head {url : String} (h : startsWithHttpScheme url = true) :
    ∃ tl, url.data = 'h' :: tl := by
  unfold startsWithHttpScheme at h
  rcases Bool.or_eq_true_iff.mp h with h1 | h1 <;>
    · rw [ List.isPrefixOf_iff_prefix] at h1
      obtain ⟨t, ht⟩ := h1
      rw [← ht]
      exact ⟨_, rfl⟩

/-- C10 counterexample: for the string `www./404.html` (which contains
the `www.` pattern, so `canRedirectToAlternative` is true), the rewrite
removes `www.` and yields exactly the fallback path `/404.html`, so
"never the fallback path" fails for arbitrary URL strings. -/
theorem trs_c10_fallback_collision_counterexample :
    canRedirectToAlternative "www./404.html" = true ∧
    findAlternative defaultFoundation "www./404.html" = "/404.html" := by
  decide

/-- C10 (corrected): for every URL beginning with `http://` or
`https://` (the shape of every probed href), each matching pattern's
substitution genuinely differs from the original, so when the URL
contains any of the three pattern substrings, `findAlternative` returns a
rewritten URL different from the original and different from the fallback
path; consequently `handleBrokenLink` applies `/404.html` exactly when
the URL contains none of the three substrings, and the spec's
"only matching substitution is a no-op" fallback case is unreachable. -/
theorem trs_c10_rewrite_never_fallback (url : String)
    (hpre : startsWithHttpScheme url = true) :
    (jsIncludes url "http://" = true → jsReplaceFirst url "http://" "https://" ≠ url) ∧
    (jsIncludes url "www." = true → jsReplaceFirst url "www." "" ≠ url) ∧
    (jsIncludes url "github.com" = true → jsReplaceFirst url "github.com" "github.io" ≠ url) ∧
    (canRedirectToAlternative url = true →
       findAlternative defaultFoundation url ≠ url ∧
       findAlternative defaultFoundation url ≠ "/404.html") ∧
    (∀ el : Element, el.href = url →
       (((handleBrokenLink defaultFoundation el).1).href = "/404.html" ↔
         canRedirectToAlternative url = false)) := by
  obtain ⟨tl, hurl⟩ := starts_http_head hpre
  have h404 : ("/404.html" : String).data = '/' :: ['4', '0', '4', '.', 'h', 't', 'm', 'l'] := by
    decide
  have hne1 : jsIncludes url "http://" = true → jsReplaceFirst url "http://" "https://" ≠ url :=
    fun h => jsReplaceFirst_ne_of_length_ne h (by decide)
  have hne2 : jsIncludes url "www." = true → jsReplaceFirst url "www." "" ≠ url :=
    fun h => jsReplaceFirst_ne_of_length_ne h (by decide)
  have hne3 : jsIncludes url "github.com" = true → jsReplaceFirst url "github.com" "github.io" ≠ url :=
    fun h => jsReplaceFirst_ne_of_length_ne h (by decide)
  have head1 : jsIncludes url "http://" = true →
      ∃ tl', (jsReplaceFirst url "http://" "https://").data = 'h' :: tl' := by
    intro hi
    cases hp : ("http://" : String).data.isPrefixOf url.data with
    | true =>
      refine ⟨['t', 't', 'p', 's', ':', '/', '/'] ++ url.data.drop 7, ?_⟩
      rw [jsReplaceFirst_of_isPrefixOf hp]
      rfl
    | false => exact jsReplaceFirst_head_of_not_prefixOf hurl hp hi
  have head2 : jsIncludes url "www." = true →
      ∃ tl', (jsReplaceFirst url "www." "").data = 'h' :: tl' := by
    intro hi
    have hp : ("www." : String).data.isPrefixOf url.data = false := by
      rw [hurl]
      exact isPrefixOf_false_of_head_ne _ _ (by decide)
    exact jsReplaceFirst_head_of_not_prefixOf hurl hp hi
  have head3 : jsIncludes url "github.com" = true →
      ∃ tl', (jsReplaceFirst url "github.com" "github.io").data = 'h' :: tl' := by
    intro hi
    have hp : ("github.com" : String).data.isPrefixOf url.data = false := by
      rw [hurl]
      exact isPrefixOf_false_of_head_ne _ _ (by decide)
    exact jsReplaceFirst_head_of_not_prefixOf hurl hp hi
  have hd : canRedirectToAlternative url = true →
      findAlternative defaultFoundation url ≠ url ∧
      findAlternative defaultFoundation url ≠ "/404.html" := by
    intro hcr
    by_cases hi1 : jsIncludes url "http://" = true
    · have hfa : findAlternative defaultFoundation url = jsReplaceFirst url "http://" "https://" := by
        simp [findAlternative, hi1, bne_iff_ne, hne1 hi1]
      obtain ⟨tl', htl'⟩ := head1 hi1
      exact ⟨hfa ▸ hne1 hi1, hfa ▸ ne_of_data_head htl' h404 (by decide)⟩
    · have hi1' : jsIncludes url "http://" = false := by simpa using hi1
      by_cases hi2 : jsIncludes url "www." = true
      · have hfa : findAlternative defaultFoundation url = jsReplaceFirst url "www." "" := by
          simp [findAlternative, hi1', hi2, bne_iff_ne, hne2 hi2]
        obtain ⟨tl', htl'⟩ := head2 hi2
        exact ⟨hfa ▸ hne2 hi2, hfa ▸ ne_of_data_head htl' h404 (by decide)⟩
      · have hi2' : jsIncludes url "www." = false := by simpa using hi2
        have hi3 : jsIncludes url "github.com" = true := by
          rcases Bool.or_eq_true_iff.mp (canRedirectToAlternative.eq_def url ▸ hcr) with h | h
          · rcases Bool.or_eq_true_iff.mp h with h' | h'
            · exact absurd h' hi1
            · exact absurd h' (by simp [hi2'])
          · exact h
        have hfa : findAlternative defaultFoundation url = jsReplaceFirst url "github.com" "github.io" := by
          simp [findAlternative, hi1', hi2', hi3, bne_iff_ne, hne3 hi3]
        obtain ⟨tl', htl'⟩ := head3 hi3
        exact ⟨hfa ▸ hne3 hi3, hfa ▸ ne_of_data_head htl' h404 (by decide)⟩
  refine ⟨hne1, hne2, hne3, hd, ?_⟩
  intro el he
  rw [(handleBrokenLink_fields defaultFoundation el).1, he]
  by_cases hcr : canRedirectToAlternative url = true
  · rw [if_pos hcr]
    constructor
    · intro hfa
      exact absurd hfa (hd hcr).2
    · intro hfalse
      rw [hcr] at hfalse
      exact absurd hfalse (by simp)
  · have hcr' : canRedirectToAlternative url = false := by simpa using hcr
    rw [if_neg (by simp [hcr'])]
    simp [defaultFoundation, hcr']

/-- C10 witness: a concrete http URL: the rewrite differs from both the
original and the fallback. -/
theorem trs_c10_rewrite_never_fallback_witness :
    startsWithHttpScheme "http://ten.example/p" = true ∧
    canRedirectToAlternative "http://ten.example/p" = true ∧
    findAlternative defaultFoundation "http://ten.example/p" ≠ "http://ten.example/p" ∧
    findAlternative defaultFoundation "http://ten.example/p" ≠ "/404.html" := by
  have h := trs_c10_rewrite_never_fallback "http://ten.example/p" (by decide)
  have hd := h.2.2.2.1 (by decide)
  exact ⟨by decide, by decide, hd.1, hd.2⟩

end TRS
